import Mathlib

/-!
Verification of the temporal-integrity pipeline of the UNAV admissions
dataset project (src/notebooks/utils.py and
src/notebooks/01_limpieza_datasets.py).

The pandas code is shallowly embedded: a DataFrame becomes a list of rows
(a structure whose fields are the columns the computation reads, with
Option for nullable columns), timestamps become integers (seconds), money
and numeric columns become rationals, and code that can raise a Python
exception returns Except.  Diagnostic print statements are modelled only
for their failure behaviour (division by zero).
-/

/-! ## String helpers

The Lean core versions of toLower, trim and lexicographic order on String
do not reduce well inside the kernel, so the embedding uses
character-list based equivalents.  They agree with the Python/pandas
behaviour on the ASCII data handled here. -/

/-- chStarts pat l is true when pat is an initial segment of l. -/
def chStarts : List Char → List Char → Bool
  | [], _ => true
  | _ :: _, [] => false
  | c :: cs, d :: ds => c == d && chStarts cs ds

/-- chContains hay pat is true when pat occurs as a contiguous substring
of hay.  Models Python substring search. -/
def chContains : List Char → List Char → Bool
  | [], pat => pat.isEmpty
  | c :: t, pat => chStarts pat (c :: t) || chContains t pat

/-- Lower-casing, character by character.  Models str.lower / toLower on
the ASCII keywords and status strings of the source. -/
def minusculas (s : String) : String := ⟨s.data.map Char.toLower⟩

/-- Case-insensitive substring test: models
Series.str.contains(keyword, case=False) for a plain (regex-free)
keyword. -/
def contieneCI (s pat : String) : Bool :=
  chContains (minusculas s).data (minusculas pat).data

/-- Whitespace trimming at both ends; models Python str.strip(). -/
def recortar (s : String) : String :=
  ⟨((s.data.dropWhile Char.isWhitespace).reverse.dropWhile Char.isWhitespace).reverse⟩

/-- Lexicographic (less-or-equal) order on character lists, the order
pandas sort_values uses on string columns. -/
def ordChars : List Char → List Char → Bool
  | [], _ => true
  | _ :: _, [] => false
  | c :: cs, d :: ds => decide (c < d) || (c == d && ordChars cs ds)

/-! ## Data model: stage history -/

/-- One row of the stage-history table (historial_etapas).  CreatedDate is
the start timestamp in seconds; Fecha_fin_etapa__c is the optional end
timestamp.  A null stage or sub-stage behaves, under the equality tests of
the source, exactly like a non-matching string, so both are plain
strings. -/
structure EventoHistorial where
  lkOportunidad : String
  plEtapa : String
  plSubetapa : String
  createdDate : Int
  fechaFinEtapa : Option Int
deriving DecidableEq, Repr

/-- One row of the opportunity master table, as read by the Target
Labeler: the identity key ID and the written target column. -/
structure FilaOportunidad where
  id : String
  target : Nat
deriving DecidableEq, Repr

/-! ## Target Labeler (utils.py, crear_target lines 51-77 and
crear_target_auditado lines 80-124) -/

/-- Distinct LK_Oportunidad__c values of history events with stage
"Matrícula OOGG" and sub-stage "Formalizada" (utils.py lines 59-62). -/
def matriculaFormalizada (historial_etapas : List EventoHistorial) : List String :=
  ((historial_etapas.filter (fun e =>
      e.plEtapa == "Matrícula OOGG" && e.plSubetapa == "Formalizada")).map
    (fun e => e.lkOportunidad)).dedup

/-- Distinct LK_Oportunidad__c values of history events with sub-stage
"Desmatriculado", any stage (utils.py lines 68-70). -/
def desmatriculados (historial_etapas : List EventoHistorial) : List String :=
  ((historial_etapas.filter (fun e => e.plSubetapa == "Desmatriculado")).map
    (fun e => e.lkOportunidad)).dedup

/-- crear_target (utils.py lines 51-77).  The two diagnostic print
statements divide by len(unique history ids) (line 63) and by
len(matricula_formalizada) (line 71); when a denominator is zero Python
raises ZeroDivisionError before the target column is written, modelled
here as Except.error. -/
def crear_target (oportunidad : List FilaOportunidad)
    (historial_etapas : List EventoHistorial) :
    Except String (List FilaOportunidad) :=
  let matricula_formalizada := matriculaFormalizada historial_etapas
  if ((historial_etapas.map (fun e => e.lkOportunidad)).dedup).length = 0 then
    Except.error "ZeroDivisionError: division by zero"
  else
    let desmatriculado := desmatriculados historial_etapas
    if matricula_formalizada.length = 0 then
      Except.error "ZeroDivisionError: division by zero"
    else
      Except.ok (oportunidad.map (fun o =>
        { o with target :=
            if o.id ∈ matricula_formalizada ∧ o.id ∉ desmatriculado then 1 else 0 }))

/-- crear_target_auditado (utils.py lines 80-124).  Same labelling rule,
written with sets: ids_target_1 = matricula_formalizada - desmatriculado
and target = ID ∈ ids_target_1 (lines 103-116).  The conversion-rate
print at line 122 divides by len(oportunidad), so an empty opportunity
table raises ZeroDivisionError. -/
def crear_target_auditado (oportunidad : List FilaOportunidad)
    (historial_etapas : List EventoHistorial) :
    Except String (List FilaOportunidad) :=
  let matricula_formalizada := matriculaFormalizada historial_etapas
  let desmatriculado := desmatriculados historial_etapas
  let ids_target_1 := matricula_formalizada.filter (fun x => x ∉ desmatriculado)
  let etiquetado := oportunidad.map (fun o =>
    { o with target := if o.id ∈ ids_target_1 then 1 else 0 })
  if oportunidad.length = 0 then
    Except.error "ZeroDivisionError: division by zero"
  else
    Except.ok etiquetado

/-! Claim-side predicates for the target label, written from the words of
the specification (sets A and B of spec section 4.2). -/

/-- The entity reached stage "Matrícula OOGG" with sub-stage
"Formalizada" somewhere in the history (membership in set A). -/
def alcanzaFormalizada (historial : List EventoHistorial) (x : String) : Prop :=
  ∃ e ∈ historial, e.lkOportunidad = x ∧
    e.plEtapa = "Matrícula OOGG" ∧ e.plSubetapa = "Formalizada"

/-- The entity appears in some history event with sub-stage
"Desmatriculado" (membership in set B). -/
def alcanzaDesmatriculado (historial : List EventoHistorial) (x : String) : Prop :=
  ∃ e ∈ historial, e.lkOportunidad = x ∧ e.plSubetapa = "Desmatriculado"

instance (historial : List EventoHistorial) (x : String) :
    Decidable (alcanzaFormalizada historial x) := by
  unfold alcanzaFormalizada; infer_instance

instance (historial : List EventoHistorial) (x : String) :
    Decidable (alcanzaDesmatriculado historial x) := by
  unfold alcanzaDesmatriculado; infer_instance

/-- The label the specification prescribes for one opportunity row:
target = 1 exactly when the id is in A and not in B, otherwise 0. -/
def etiquetaSegunSpec (historial : List EventoHistorial)
    (o : FilaOportunidad) : FilaOportunidad :=
  { o with target :=
      if alcanzaFormalizada historial o.id ∧ ¬ alcanzaDesmatriculado historial o.id
      then 1 else 0 }

lemma mem_matriculaFormalizada (historial : List EventoHistorial) (x : String) :
    x ∈ matriculaFormalizada historial ↔ alcanzaFormalizada historial x := by
  simp only [matriculaFormalizada, alcanzaFormalizada, List.mem_dedup,
    List.mem_map, List.mem_filter, Bool.and_eq_true, beq_iff_eq]
  constructor
  · rintro ⟨e, ⟨he, h1, h2⟩, rfl⟩
    exact ⟨e, he, rfl, h1, h2⟩
  · rintro ⟨e, he, rfl, h1, h2⟩
    exact ⟨e, ⟨he, h1, h2⟩, rfl⟩

lemma mem_desmatriculados (historial : List EventoHistorial) (x : String) :
    x ∈ desmatriculados historial ↔ alcanzaDesmatriculado historial x := by
  simp only [desmatriculados, alcanzaDesmatriculado, List.mem_dedup,
    List.mem_map, List.mem_filter, beq_iff_eq]
  constructor
  · rintro ⟨e, ⟨he, h1⟩, rfl⟩
    exact ⟨e, he, rfl, h1⟩
  · rintro ⟨e, he, rfl, h1⟩
    exact ⟨e, ⟨he, h1⟩, rfl⟩

deriving instance DecidableEq for Except

/-- Concrete data for the Target Labeler witnesses: opp1 is formalized,
opp2 is formalized but later unenrolled, opp3 never appears in the
history. -/
def oportunidadC1 : List FilaOportunidad :=
  [⟨"opp1", 7⟩, ⟨"opp2", 7⟩, ⟨"opp3", 7⟩]

def historialC1 : List EventoHistorial :=
  [⟨"opp1", "Matrícula OOGG", "Formalizada", 100, none⟩,
   ⟨"opp2", "Matrícula OOGG", "Formalizada", 200, some 300⟩,
   ⟨"opp2", "Anulación matrícula", "Desmatriculado", 400, none⟩]

/-- Stage history with events but no formalized enrollment. -/
def historialC10 : List EventoHistorial :=
  [⟨"opp1", "Solicitud", "Nueva", 50, none⟩]

/-- C1: for every opportunity row, target = 1 iff its ID occurs in a
history event with stage "Matrícula OOGG" and sub-stage "Formalizada" and
in no event with sub-stage "Desmatriculado"; otherwise target = 0,
including IDs absent from the history.  Both crear_target and
crear_target_auditado, whenever they return, return exactly the
specification labelling. -/
theorem crear_target_etiqueta_correcta
    (oportunidad : List FilaOportunidad) (historial : List EventoHistorial)
    (out outAud : List FilaOportunidad)
    (h : crear_target oportunidad historial = Except.ok out)
    (hAud : crear_target_auditado oportunidad historial = Except.ok outAud) :
    out = oportunidad.map (etiquetaSegunSpec historial) ∧
    outAud = oportunidad.map (etiquetaSegunSpec historial) := by
  constructor
  · by_cases h1 : ((historial.map (fun e => e.lkOportunidad)).dedup).length = 0
    · simp only [crear_target, if_pos h1] at h
      exact absurd h (by simp)
    · by_cases h2 : (matriculaFormalizada historial).length = 0
      · simp only [crear_target, if_neg h1, if_pos h2] at h
        exact absurd h (by simp)
      · simp only [crear_target, if_neg h1, if_neg h2] at h
        injection h with h3
        rw [← h3]
        refine List.map_congr_left ?_
        intro o _
        refine congrArg (fun t => { o with target := t }) ?_
        refine if_congr ?_ rfl rfl
        rw [mem_matriculaFormalizada, mem_desmatriculados]
  · by_cases h1 : oportunidad.length = 0
    · simp only [crear_target_auditado, if_pos h1] at hAud
      exact absurd hAud (by simp)
    · simp only [crear_target_auditado, if_neg h1] at hAud
      injection hAud with h3
      rw [← h3]
      refine List.map_congr_left ?_
      intro o _
      refine congrArg (fun t => { o with target := t }) ?_
      refine if_congr ?_ rfl rfl
      simp only [List.mem_filter, decide_eq_true_eq,
        mem_matriculaFormalizada, mem_desmatriculados]

theorem crear_target_etiqueta_correcta_witness :
    crear_target oportunidadC1 historialC1 =
      Except.ok (oportunidadC1.map (etiquetaSegunSpec historialC1)) := by
  have h := crear_target_etiqueta_correcta oportunidadC1 historialC1
      [⟨"opp1", 1⟩, ⟨"opp2", 0⟩, ⟨"opp3", 0⟩]
      [⟨"opp1", 1⟩, ⟨"opp2", 0⟩, ⟨"opp3", 0⟩]
      (by decide) (by decide)
  rw [← h.1]
  decide

/-- C10: on a non-empty stage history with no ("Matrícula OOGG",
"Formalizada") event, crear_target raises ZeroDivisionError in the
diagnostic percentage print of utils.py line 71 (len(desmatriculado) /
len(matricula_formalizada)), instead of returning the opportunity table
with every target 0. -/
theorem crear_target_division_por_cero
    (oportunidad : List FilaOportunidad) (historial : List EventoHistorial)
    (hne : historial ≠ [])
    (hnf : ∀ e ∈ historial,
      ¬(e.plEtapa = "Matrícula OOGG" ∧ e.plSubetapa = "Formalizada")) :
    crear_target oportunidad historial =
      Except.error "ZeroDivisionError: division by zero" := by
  have hmf : matriculaFormalizada historial = [] := by
    unfold matriculaFormalizada
    rw [List.dedup_eq_nil, List.map_eq_nil_iff, List.filter_eq_nil_iff]
    intro e he
    simp only [Bool.and_eq_true, beq_iff_eq]
    intro hc
    exact hnf e he ⟨hc.1, hc.2⟩
  have h1 : ¬(((historial.map (fun e => e.lkOportunidad)).dedup).length = 0) := by
    rw [List.length_eq_zero, List.dedup_eq_nil, List.map_eq_nil_iff]
    exact hne
  simp only [crear_target, hmf, List.length_nil, if_neg h1]
  simp

theorem crear_target_division_por_cero_witness :
    crear_target [⟨"opp1", 7⟩] historialC10 =
      Except.error "ZeroDivisionError: division by zero" :=
  crear_target_division_por_cero [⟨"opp1", 7⟩] historialC10
    (by decide) (by decide)

/-! ## Temporal Stage Calculator (utils.py, calcular_tiempos_etapas
lines 128-154)

The source sorts by (LK_Oportunidad__c, CreatedDate); the sort is
modelled with insertion sort over the same lexicographic key (the claim
does not constrain the order of rows with equal keys).  A day count is
Timedelta.days, i.e. the floor of the difference over 86400 seconds. -/

lemma ordChars_total : ∀ l1 l2 : List Char, (ordChars l1 l2 || ordChars l2 l1) = true
  | [], _ => by simp [ordChars]
  | _ :: _, [] => by simp [ordChars]
  | c :: cs, d :: ds => by
    rcases lt_trichotomy c d with h | h | h
    · simp [ordChars, h]
    · subst h
      have ih := ordChars_total cs ds
      simp only [ordChars, lt_irrefl, decide_False, Bool.false_or, beq_self_eq_true,
        Bool.true_and] at *
      exact ih
    · simp [ordChars, h]

lemma ordChars_trans : ∀ l1 l2 l3 : List Char,
    ordChars l1 l2 = true → ordChars l2 l3 = true → ordChars l1 l3 = true
  | [], _, _, _, _ => by simp [ordChars]
  | _ :: _, [], _, h12, _ => by simp [ordChars] at h12
  | _ :: _, _ :: _, [], _, h23 => by simp [ordChars] at h23
  | c :: cs, d :: ds, e :: es, h12, h23 => by
    simp only [ordChars, Bool.or_eq_true, Bool.and_eq_true, decide_eq_true_eq,
      beq_iff_eq] at *
    rcases h12 with h12 | ⟨rfl, h12⟩
    · rcases h23 with h23 | ⟨rfl, h23⟩
      · exact Or.inl (lt_trans h12 h23)
      · exact Or.inl h12
    · rcases h23 with h23 | ⟨rfl, h23⟩
      · exact Or.inl h23
      · exact Or.inr ⟨rfl, ordChars_trans cs ds es h12 h23⟩

lemma ordChars_antisymm : ∀ l1 l2 : List Char,
    ordChars l1 l2 = true → ordChars l2 l1 = true → l1 = l2
  | [], [], _, _ => rfl
  | [], _ :: _, _, h21 => by simp [ordChars] at h21
  | _ :: _, [], h12, _ => by simp [ordChars] at h12
  | c :: cs, d :: ds, h12, h21 => by
    simp only [ordChars, Bool.or_eq_true, Bool.and_eq_true, decide_eq_true_eq,
      beq_iff_eq] at h12 h21
    rcases h12 with h12 | ⟨rfl, h12⟩
    · rcases h21 with h21 | ⟨heq, _⟩
      · exact absurd h21 (lt_asymm h12)
      · exact absurd h12 (heq ▸ lt_irrefl d)
    · rcases h21 with h21 | ⟨_, h21⟩
      · exact absurd h21 (lt_irrefl c)
      · rw [ordChars_antisymm cs ds h12 h21]

/-- Sort key of historial_etapas.sort_values(by=["LK_Oportunidad__c",
"CreatedDate"]): entity key first, start timestamp second. -/
def ordenHistorial (e1 e2 : EventoHistorial) : Bool :=
  if e1.lkOportunidad = e2.lkOportunidad then decide (e1.createdDate ≤ e2.createdDate)
  else ordChars e1.lkOportunidad.data e2.lkOportunidad.data

/-- The sort key as a relation. -/
def ordenHistorialR (e1 e2 : EventoHistorial) : Prop := ordenHistorial e1 e2 = true

instance : DecidableRel ordenHistorialR :=
  fun e1 e2 => inferInstanceAs (Decidable (ordenHistorial e1 e2 = true))

lemma ordenHistorial_total (a b : EventoHistorial) :
    ordenHistorialR a b ∨ ordenHistorialR b a := by
  unfold ordenHistorialR ordenHistorial
  by_cases h : a.lkOportunidad = b.lkOportunidad
  · rw [if_pos h, if_pos h.symm]
    rcases Int.le_total a.createdDate b.createdDate with hle | hle
    · exact Or.inl (by simpa using hle)
    · exact Or.inr (by simpa using hle)
  · rw [if_neg h, if_neg (Ne.symm h)]
    have := ordChars_total a.lkOportunidad.data b.lkOportunidad.data
    rcases Bool.or_eq_true_iff.mp this with h1 | h1
    · exact Or.inl h1
    · exact Or.inr h1

lemma ordenHistorial_trans (a b c : EventoHistorial) :
    ordenHistorialR a b → ordenHistorialR b c → ordenHistorialR a c := by
  unfold ordenHistorialR ordenHistorial
  by_cases hab : a.lkOportunidad = b.lkOportunidad <;>
    by_cases hbc : b.lkOportunidad = c.lkOportunidad
  · rw [if_pos hab, if_pos hbc, if_pos (hab.trans hbc)]
    simp only [decide_eq_true_eq]
    exact Int.le_trans
  · rw [if_pos hab, if_neg hbc, if_neg (fun hac => hbc (hab.symm.trans hac))]
    intro _ h2
    rw [hab]
    exact h2
  · rw [if_neg hab, if_pos hbc, if_neg (fun hac => hab (hac.trans hbc.symm))]
    intro h1 _
    rw [← hbc]
    exact h1
  · rw [if_neg hab, if_neg hbc]
    intro h1 h2
    by_cases hac : a.lkOportunidad = c.lkOportunidad
    · exfalso
      rw [← hac] at h2
      exact hab (String.ext (ordChars_antisymm _ _ h1 h2))
    · rw [if_neg hac]
      exact ordChars_trans _ _ _ h1 h2

instance : IsTotal EventoHistorial ordenHistorialR := ⟨ordenHistorial_total⟩

instance : IsTrans EventoHistorial ordenHistorialR := ⟨ordenHistorial_trans⟩

/-- tiempo_etapa_dias (utils.py lines 142-144):
(Fecha_fin_etapa__c - CreatedDate).dt.days with nulls filled by 0. -/
def tiempoEtapa (e : EventoHistorial) : Int :=
  match e.fechaFinEtapa with
  | some f => Int.fdiv (f - e.createdDate) 86400
  | none => 0

/-- Models groupby("LK_Oportunidad__c")["CreatedDate"].shift(-1) at one row of
the sorted frame: the start timestamp of the next row (in the remaining
sorted suffix) that belongs to the same entity. -/
def fechaSiguienteEtapa (lk : String) (resto : List EventoHistorial) : Option Int :=
  (resto.find? (fun x => x.lkOportunidad == lk)).map (fun x => x.createdDate)

/-- A stage-history row with the two derived columns appended. -/
structure EventoConTiempos where
  evento : EventoHistorial
  tiempo_etapa_dias : Int
  tiempo_entre_etapas_dias : Int
deriving DecidableEq, Repr

/-- Walk the sorted frame computing both derived columns; the inter-stage
gap (utils.py lines 148-152) is the next same-entity start minus this
start, in whole days, 0 when there is no next event. -/
def anotarTiempos : List EventoHistorial → List EventoConTiempos
  | [] => []
  | e :: resto =>
    { evento := e
      tiempo_etapa_dias := tiempoEtapa e
      tiempo_entre_etapas_dias :=
        match fechaSiguienteEtapa e.lkOportunidad resto with
        | some f => Int.fdiv (f - e.createdDate) 86400
        | none => 0 } :: anotarTiempos resto

/-- calcular_tiempos_etapas (utils.py lines 128-154). -/
def calcular_tiempos_etapas (historial_etapas : List EventoHistorial) :
    List EventoConTiempos :=
  anotarTiempos (List.insertionSort ordenHistorialR historial_etapas)

lemma anotarTiempos_map_evento : ∀ l : List EventoHistorial,
    (anotarTiempos l).map (fun x => x.evento) = l
  | [] => rfl
  | e :: resto => by
    simp only [anotarTiempos, List.map_cons, anotarTiempos_map_evento resto]

lemma anotarTiempos_duracion : ∀ (l : List EventoHistorial) (x : EventoConTiempos),
    x ∈ anotarTiempos l → x.tiempo_etapa_dias = tiempoEtapa x.evento
  | [], x, hx => by simp [anotarTiempos] at hx
  | e :: resto, x, hx => by
    simp only [anotarTiempos, List.mem_cons] at hx
    rcases hx with rfl | hx
    · rfl
    · exact anotarTiempos_duracion resto x hx

lemma anotarTiempos_get : ∀ (l : List EventoHistorial) (i : Nat)
    (hi : i < (anotarTiempos l).length) (hl : i < l.length),
    (anotarTiempos l).get ⟨i, hi⟩ =
      { evento := l.get ⟨i, hl⟩
        tiempo_etapa_dias := tiempoEtapa (l.get ⟨i, hl⟩)
        tiempo_entre_etapas_dias :=
          match fechaSiguienteEtapa (l.get ⟨i, hl⟩).lkOportunidad (l.drop (i + 1)) with
          | some f => Int.fdiv (f - (l.get ⟨i, hl⟩).createdDate) 86400
          | none => 0 }
  | e :: resto, 0, _, _ => rfl
  | e :: resto, i + 1, hi, hl => by
    have hi' : i < (anotarTiempos resto).length := by
      simpa [anotarTiempos] using Nat.lt_of_succ_lt_succ hi
    have hl' : i < resto.length := Nat.lt_of_succ_lt_succ hl
    calc (anotarTiempos (e :: resto)).get ⟨i + 1, hi⟩
        = (anotarTiempos resto).get ⟨i, hi'⟩ := by
          simp only [anotarTiempos, List.get_cons_succ]
      _ = _ := by rw [anotarTiempos_get resto i hi' hl']; rfl

/-- Concrete stage history for the C6 witness: two entities, events given
out of order, one missing end timestamp. -/
def historialC6 : List EventoHistorial :=
  [⟨"b", "Solicitud", "Nueva", 0, some 172800⟩,
   ⟨"a", "Pruebas", "Hechas", 864000, none⟩,
   ⟨"a", "Solicitud", "Nueva", 0, some 43200⟩]

/-- C6: calcular_tiempos_etapas returns the history sorted by (entity
key, start timestamp) ascending; tiempo_etapa_dias is end minus start in
whole days, 0 when the end timestamp is missing; and
tiempo_entre_etapas_dias is the next same-entity start minus this start
in whole days, 0 (not null) for the last event of each entity. -/
theorem tiempos_etapas_correctos (historial : List EventoHistorial)
    (out : List EventoConTiempos)
    (hout : out = calcular_tiempos_etapas historial) :
    ((out.map (fun x => x.evento)).Perm historial ∧
      (out.map (fun x => x.evento)).Pairwise ordenHistorialR) ∧
    (∀ x ∈ out, x.tiempo_etapa_dias =
      match x.evento.fechaFinEtapa with
      | some f => Int.fdiv (f - x.evento.createdDate) 86400
      | none => 0) ∧
    (∀ i (hi : i < out.length) (hl : i < (List.insertionSort ordenHistorialR historial).length),
      (out.get ⟨i, hi⟩).tiempo_entre_etapas_dias =
        match fechaSiguienteEtapa ((out.get ⟨i, hi⟩).evento.lkOportunidad)
            ((out.map (fun x => x.evento)).drop (i + 1)) with
        | some f => Int.fdiv (f - (out.get ⟨i, hi⟩).evento.createdDate) 86400
        | none => 0) := by
  subst hout
  unfold calcular_tiempos_etapas
  rw [anotarTiempos_map_evento]
  refine ⟨⟨List.perm_insertionSort ordenHistorialR historial,
    List.sorted_insertionSort ordenHistorialR historial⟩, ?_, ?_⟩
  · intro x hx
    rw [anotarTiempos_duracion _ x hx]
    cases h : x.evento.fechaFinEtapa <;> simp [tiempoEtapa, h]
  · intro i hi hl
    rw [anotarTiempos_get (List.insertionSort ordenHistorialR historial) i hi hl]

theorem tiempos_etapas_correctos_witness :
    ((calcular_tiempos_etapas historialC6).map (fun x => x.evento)).Perm historialC6 ∧
    ((calcular_tiempos_etapas historialC6).get ⟨0, by decide⟩).tiempo_entre_etapas_dias = 10 ∧
    ((calcular_tiempos_etapas historialC6).get ⟨2, by decide⟩).tiempo_etapa_dias = 2 := by
  have h := tiempos_etapas_correctos historialC6 (calcular_tiempos_etapas historialC6) rfl
  refine ⟨h.1.1, ?_, ?_⟩
  · have h2 := h.2.2 0 (by decide) (by decide)
    rw [h2]
    decide
  · have h3 := h.2.1 ((calcular_tiempos_etapas historialC6).get ⟨2, by decide⟩)
      (List.get_mem _ _ _)
    rw [h3]
    decide

/-! ## Derived ratio PORCENTAJE_PAGADO_FINAL
(01_limpieza_datasets.py lines 117-120) -/

/-- One row of the assembled table, restricted to the two price columns
the ratio computation reads. -/
structure FilaEconomica where
  CU_precioAplicado_def__c : Option ℚ
  CU_precioOrdinario_def__c : Option ℚ
deriving DecidableEq, Repr

/-- Lines 117-119: the raw ratio aplicado / ordinario * 100 under pandas
null propagation.  At ordinario = 0 the float division would give an IEEE
infinity or NaN; it is modelled as null because line 120 unconditionally
overwrites every row with ordinario ≤ 0, so that value is never
observable in the result. -/
def porcentajeCrudo (r : FilaEconomica) : Option ℚ :=
  match r.CU_precioAplicado_def__c, r.CU_precioOrdinario_def__c with
  | some a, some o => if o = 0 then none else some (a / o * 100)
  | _, _ => none

/-- Line 120 mask: CU_precioOrdinario_def__c <= 0.  A null price compares
false in pandas, so null-base rows are not selected by the mask (their
ratio is already null by propagation). -/
def ordinarioNoPositivo (r : FilaEconomica) : Bool :=
  match r.CU_precioOrdinario_def__c with
  | some o => decide (o ≤ 0)
  | none => false

/-- Lines 117-120 over the whole table: compute the raw ratio column,
then set it to null wherever ordinario ≤ 0.  Each output pair is the row
together with its PORCENTAJE_PAGADO_FINAL value. -/
def calcularPorcentajePagado (filas : List FilaEconomica) :
    List (FilaEconomica × Option ℚ) :=
  let conCrudo := filas.map (fun r => (r, porcentajeCrudo r))
  conCrudo.map (fun p => if ordinarioNoPositivo p.1 then (p.1, none) else p)

/-- C4: on every row of the assembled table, a base ≤ 0 yields a null
ratio (no infinity, no exception — the embedding is a total function into
Option), and a base > 0 yields exactly aplicado / base * 100, under null
propagation for a missing numerator. -/
theorem porcentaje_pagado_seguro (filas : List FilaEconomica)
    (r : FilaEconomica) (pct : Option ℚ)
    (hmem : (r, pct) ∈ calcularPorcentajePagado filas) :
    (∀ o, r.CU_precioOrdinario_def__c = some o → o ≤ 0 → pct = none) ∧
    (∀ o, r.CU_precioOrdinario_def__c = some o → 0 < o →
      pct = r.CU_precioAplicado_def__c.map (fun a => a / o * 100)) := by
  simp only [calcularPorcentajePagado, List.map_map, List.mem_map,
    Function.comp_apply] at hmem
  obtain ⟨s, hs, heq⟩ := hmem
  by_cases hnp : ordinarioNoPositivo s = true
  · rw [if_pos hnp] at heq
    obtain ⟨rfl, rfl⟩ := Prod.mk.injEq .. ▸ And.intro (congrArg Prod.fst heq) (congrArg Prod.snd heq)
    constructor
    · intro o _ _
      rfl
    · intro o ho hpos
      unfold ordinarioNoPositivo at hnp
      rw [ho] at hnp
      simp only [decide_eq_true_eq] at hnp
      exact absurd hpos (not_lt.mpr hnp)
  · rw [if_neg hnp] at heq
    obtain ⟨rfl, rfl⟩ := Prod.mk.injEq .. ▸ And.intro (congrArg Prod.fst heq) (congrArg Prod.snd heq)
    constructor
    · intro o ho hle
      unfold ordinarioNoPositivo at hnp
      rw [ho] at hnp
      simp only [decide_eq_true_eq] at hnp
      exact absurd hle hnp
    · intro o ho hpos
      cases ha : r.CU_precioAplicado_def__c with
      | none => simp [porcentajeCrudo, ho, ha]
      | some a => simp [porcentajeCrudo, ho, ha, hpos.ne']

/-- Concrete table for the C4 witness. -/
def filasC4 : List FilaEconomica :=
  [⟨some 50, some 200⟩, ⟨some 5, some 0⟩, ⟨none, some (-3)⟩]

theorem porcentaje_pagado_seguro_witness :
    (((⟨some 50, some 200⟩ : FilaEconomica), (some 25 : Option ℚ)) ∈
      calcularPorcentajePagado filasC4) ∧
    (some 25 : Option ℚ) = (some (50 : ℚ)).map (fun a => a / 200 * 100) := by
  have hm : (((⟨some 50, some 200⟩ : FilaEconomica), (some 25 : Option ℚ)) ∈
      calcularPorcentajePagado filasC4) := by
    simp [calcularPorcentajePagado, filasC4, porcentajeCrudo, ordinarioNoPositivo]
    norm_num
  refine ⟨hm, ?_⟩
  have h := (porcentaje_pagado_seguro filasC4 _ _ hm).2 200 rfl (by norm_num)
  simpa using h

/-! ## Leakage Guard (01_limpieza_datasets.py lines 152-157) -/

/-- Early stages at which payment information is illegitimate
(line 152). -/
def etapas_pago : List String := ["Solicitud", "Pruebas", "Admisión académica"]

/-- One row of the final merged table, restricted to the stage column and
the four configured payment columns (line 153).  PL_Etapa__c can be null
after the left merge of the stage history. -/
structure FilaGuard where
  PL_Etapa__c : Option String
  PAID_AMOUNT : Option ℚ
  MINIMUMPAYMENTPAYED : Option ℚ
  CU_precioAplicado_def__c : Option ℚ
  PORCENTAJE_PAGADO_FINAL : Option ℚ
deriving DecidableEq, Repr

/-- mask_futuro (line 156): the stage is in the early-stage set and at
least one payment column is non-null.  A null stage is never in the set
(pandas isin semantics). -/
def mask_futuro (r : FilaGuard) : Bool :=
  (match r.PL_Etapa__c with
   | some e => etapas_pago.contains e
   | none => false) &&
  (r.PAID_AMOUNT.isSome || r.MINIMUMPAYMENTPAYED.isSome ||
   r.CU_precioAplicado_def__c.isSome || r.PORCENTAJE_PAGADO_FINAL.isSome)

/-- Line 157: null every configured payment column on each masked row. -/
def aplicarGuardaFuga (filas : List FilaGuard) : List FilaGuard :=
  filas.map (fun r =>
    if mask_futuro r then
      { r with PAID_AMOUNT := none, MINIMUMPAYMENTPAYED := none,
               CU_precioAplicado_def__c := none, PORCENTAJE_PAGADO_FINAL := none }
    else r)

/-- C5: the Leakage Guard is idempotent — applying it twice yields
exactly the table produced by applying it once. -/
theorem guarda_fuga_idempotente (filas : List FilaGuard) :
    aplicarGuardaFuga (aplicarGuardaFuga filas) = aplicarGuardaFuga filas := by
  unfold aplicarGuardaFuga
  rw [List.map_map]
  refine List.map_congr_left ?_
  intro r _
  simp only [Function.comp_apply]
  by_cases h : mask_futuro r = true
  · rw [if_pos h]
    rw [if_neg (by simp [mask_futuro])]
  · rw [if_neg h, if_neg h]

/-! ## Milestone-based history cleaning (utils.py,
limpiar_historial_por_hitos lines 158-207) -/

/-- One row of the principal (opportunity) table as read by
limpiar_historial_por_hitos: the identity key and the academic and
economic column groups (utils.py lines 186-193).  The values are opaque
to the cleaning logic, which only nulls or preserves them. -/
structure FilaPrincipal where
  id : String
  NU_NOTA_MEDIA_ADMISION : Option ℚ
  CH_PRUEBAS_CALIFICADAS : Option ℚ
  NU_RESULTADO_ADMISION_PUNTOS : Option ℚ
  PL_RESOLUCION_DEFINITIVA : Option ℚ
  MINIMUMPAYMENTPAYED : Option ℚ
  PAID_AMOUNT : Option ℚ
  PAID_PERCENT : Option ℚ
  CH_PAGO_SUPERIOR : Option ℚ
  CH_MATRICULA_SUJETA_BECA : Option ℚ
  CH_AYUDA_FINANCIACION : Option ℚ
  CU_IMPORTE_TOTAL : Option ℚ
deriving DecidableEq, Repr

/-- One row of the enriched history table returned by
limpiar_historial_por_hitos: the history row, its two milestone dates
(kept, since the drop at line 205 is commented out), and the merged
principal columns after masking. -/
structure FilaHistorialHitos where
  lkOportunidad : String
  plEtapa : String
  plSubetapa : String
  createdDate : Int
  fechaFinEtapa : Option Int
  fecha_pruebas_calificadas : Option Int
  fecha_matricula_iniciada : Option Int
  NU_NOTA_MEDIA_ADMISION : Option ℚ
  CH_PRUEBAS_CALIFICADAS : Option ℚ
  NU_RESULTADO_ADMISION_PUNTOS : Option ℚ
  PL_RESOLUCION_DEFINITIVA : Option ℚ
  MINIMUMPAYMENTPAYED : Option ℚ
  PAID_AMOUNT : Option ℚ
  PAID_PERCENT : Option ℚ
  CH_PAGO_SUPERIOR : Option ℚ
  CH_MATRICULA_SUJETA_BECA : Option ℚ
  CH_AYUDA_FINANCIACION : Option ℚ
  CU_IMPORTE_TOTAL : Option ℚ
deriving DecidableEq, Repr

/-- Models groupby("LK_Oportunidad__c")["CreatedDate"].min() over the events of
one entity with the given stage and sub-stage; none when the entity has
no such event (utils.py lines 164-175). -/
def fechaHito (etapa subetapa : String) (df_historial : List EventoHistorial)
    (lk : String) : Option Int :=
  ((df_historial.filter (fun e => e.lkOportunidad == lk &&
      e.plEtapa == etapa && e.plSubetapa == subetapa)).map
    (fun e => e.createdDate)).min?

/-- Academic milestone date (utils.py lines 164-168). -/
def fechaPruebasCalificadas : List EventoHistorial → String → Option Int :=
  fechaHito "Pruebas de admisión" "Pruebas calificadas"

/-- Economic milestone date (utils.py lines 171-175). -/
def fechaMatriculaIniciada : List EventoHistorial → String → Option Int :=
  fechaHito "Matrícula admisión" "Pago Mínimo"

/-- Left-merge lookup (utils.py line 183): every principal row whose ID
equals the entity key, or a single all-null row when there is none. -/
def filasPrincipalPara (df_principal : List FilaPrincipal) (lk : String) :
    List (Option FilaPrincipal) :=
  match df_principal.filter (fun p => p.id == lk) with
  | [] => [none]
  | ps => ps.map some

/-- limpiar_historial_por_hitos (utils.py lines 158-207): merge each
history row with its entity's milestone dates and principal columns, then
null the academic group on rows earlier than the academic milestone (or
with no academic milestone), and the economic group likewise
(lines 197-202). -/
def limpiar_historial_por_hitos (df_historial : List EventoHistorial)
    (df_principal : List FilaPrincipal) : List FilaHistorialHitos :=
  df_historial.flatMap (fun e =>
    let fpc := fechaPruebasCalificadas df_historial e.lkOportunidad
    let fmi := fechaMatriculaIniciada df_historial e.lkOportunidad
    let mask_acad : Bool :=
      match fpc with
      | none => true
      | some f => decide (e.createdDate < f)
    let mask_econ : Bool :=
      match fmi with
      | none => true
      | some f => decide (e.createdDate < f)
    (filasPrincipalPara df_principal e.lkOportunidad).map (fun p =>
      { lkOportunidad := e.lkOportunidad
        plEtapa := e.plEtapa
        plSubetapa := e.plSubetapa
        createdDate := e.createdDate
        fechaFinEtapa := e.fechaFinEtapa
        fecha_pruebas_calificadas := fpc
        fecha_matricula_iniciada := fmi
        NU_NOTA_MEDIA_ADMISION :=
          if mask_acad then none else p.bind (fun q => q.NU_NOTA_MEDIA_ADMISION)
        CH_PRUEBAS_CALIFICADAS :=
          if mask_acad then none else p.bind (fun q => q.CH_PRUEBAS_CALIFICADAS)
        NU_RESULTADO_ADMISION_PUNTOS :=
          if mask_acad then none else p.bind (fun q => q.NU_RESULTADO_ADMISION_PUNTOS)
        PL_RESOLUCION_DEFINITIVA :=
          if mask_acad then none else p.bind (fun q => q.PL_RESOLUCION_DEFINITIVA)
        MINIMUMPAYMENTPAYED :=
          if mask_econ then none else p.bind (fun q => q.MINIMUMPAYMENTPAYED)
        PAID_AMOUNT :=
          if mask_econ then none else p.bind (fun q => q.PAID_AMOUNT)
        PAID_PERCENT :=
          if mask_econ then none else p.bind (fun q => q.PAID_PERCENT)
        CH_PAGO_SUPERIOR :=
          if mask_econ then none else p.bind (fun q => q.CH_PAGO_SUPERIOR)
        CH_MATRICULA_SUJETA_BECA :=
          if mask_econ then none else p.bind (fun q => q.CH_MATRICULA_SUJETA_BECA)
        CH_AYUDA_FINANCIACION :=
          if mask_econ then none else p.bind (fun q => q.CH_AYUDA_FINANCIACION)
        CU_IMPORTE_TOTAL :=
          if mask_econ then none else p.bind (fun q => q.CU_IMPORTE_TOTAL) }))

lemma fechaHito_none_iff (et su : String) (h : List EventoHistorial) (lk : String) :
    fechaHito et su h lk = none ↔
      ¬ ∃ e ∈ h, e.lkOportunidad = lk ∧ e.plEtapa = et ∧ e.plSubetapa = su := by
  unfold fechaHito
  rw [List.min?_eq_none_iff, List.map_eq_nil_iff, List.filter_eq_nil_iff]
  simp only [Bool.and_eq_true, beq_iff_eq]
  constructor
  · rintro hall ⟨e, he, h1, h2, h3⟩
    exact hall e he ⟨⟨h1, h2⟩, h3⟩
  · intro hne e he hcond
    exact hne ⟨e, he, hcond.1.1, hcond.1.2, hcond.2⟩

lemma fechaHito_some (et su : String) (h : List EventoHistorial) (lk : String)
    (f : Int) (hf : fechaHito et su h lk = some f) :
    (∃ e ∈ h, e.lkOportunidad = lk ∧ e.plEtapa = et ∧ e.plSubetapa = su ∧
      e.createdDate = f) ∧
    (∀ e ∈ h, e.lkOportunidad = lk → e.plEtapa = et → e.plSubetapa = su →
      f ≤ e.createdDate) := by
  unfold fechaHito at hf
  constructor
  · have hm := List.min?_mem (fun a b => min_choice a b) hf
    simp only [List.mem_map, List.mem_filter, Bool.and_eq_true, beq_iff_eq] at hm
    obtain ⟨e, ⟨he, ⟨h1, h2⟩, h3⟩, h4⟩ := hm
    exact ⟨e, he, h1, h2, h3, h4⟩
  · intro e he h1 h2 h3
    have hall := (List.le_min?_iff (fun a b c => le_min_iff) hf).1 (le_refl f)
    apply hall
    simp only [List.mem_map, List.mem_filter, Bool.and_eq_true, beq_iff_eq]
    exact ⟨e, ⟨he, ⟨h1, h2⟩, h3⟩, rfl⟩

/-- C7: each output row of limpiar_historial_por_hitos carries, per
entity, the earliest CreatedDate of a ("Pruebas de admisión", "Pruebas
calificadas") event and the earliest CreatedDate of a ("Matrícula
admisión", "Pago Mínimo") event, and the academic (resp. economic)
column group is null on every row whose own CreatedDate is strictly
earlier than the respective milestone or whose entity has no such
milestone at all. -/
theorem limpiar_hitos_correcto (df_historial : List EventoHistorial)
    (df_principal : List FilaPrincipal) (r : FilaHistorialHitos)
    (hr : r ∈ limpiar_historial_por_hitos df_historial df_principal) :
    ((r.fecha_pruebas_calificadas = none ↔
        ¬ ∃ e ∈ df_historial, e.lkOportunidad = r.lkOportunidad ∧
          e.plEtapa = "Pruebas de admisión" ∧ e.plSubetapa = "Pruebas calificadas") ∧
      (∀ f, r.fecha_pruebas_calificadas = some f →
        (∃ e ∈ df_historial, e.lkOportunidad = r.lkOportunidad ∧
          e.plEtapa = "Pruebas de admisión" ∧ e.plSubetapa = "Pruebas calificadas" ∧
          e.createdDate = f) ∧
        (∀ e ∈ df_historial, e.lkOportunidad = r.lkOportunidad →
          e.plEtapa = "Pruebas de admisión" → e.plSubetapa = "Pruebas calificadas" →
          f ≤ e.createdDate))) ∧
    ((r.fecha_matricula_iniciada = none ↔
        ¬ ∃ e ∈ df_historial, e.lkOportunidad = r.lkOportunidad ∧
          e.plEtapa = "Matrícula admisión" ∧ e.plSubetapa = "Pago Mínimo") ∧
      (∀ f, r.fecha_matricula_iniciada = some f →
        (∃ e ∈ df_historial, e.lkOportunidad = r.lkOportunidad ∧
          e.plEtapa = "Matrícula admisión" ∧ e.plSubetapa = "Pago Mínimo" ∧
          e.createdDate = f) ∧
        (∀ e ∈ df_historial, e.lkOportunidad = r.lkOportunidad →
          e.plEtapa = "Matrícula admisión" → e.plSubetapa = "Pago Mínimo" →
          f ≤ e.createdDate))) ∧
    ((r.fecha_pruebas_calificadas = none ∨
        (∃ f, r.fecha_pruebas_calificadas = some f ∧ r.createdDate < f)) →
      r.NU_NOTA_MEDIA_ADMISION = none ∧ r.CH_PRUEBAS_CALIFICADAS = none ∧
      r.NU_RESULTADO_ADMISION_PUNTOS = none ∧ r.PL_RESOLUCION_DEFINITIVA = none) ∧
    ((r.fecha_matricula_iniciada = none ∨
        (∃ f, r.fecha_matricula_iniciada = some f ∧ r.createdDate < f)) →
      r.MINIMUMPAYMENTPAYED = none ∧ r.PAID_AMOUNT = none ∧
      r.PAID_PERCENT = none ∧ r.CH_PAGO_SUPERIOR = none ∧
      r.CH_MATRICULA_SUJETA_BECA = none ∧ r.CH_AYUDA_FINANCIACION = none ∧
      r.CU_IMPORTE_TOTAL = none) := by
  rw [limpiar_historial_por_hitos, List.mem_flatMap] at hr
  obtain ⟨e, he, hr2⟩ := hr
  simp only [List.mem_map] at hr2
  obtain ⟨p, hp, rfl⟩ := hr2
  refine ⟨⟨?_, ?_⟩, ⟨?_, ?_⟩, ?_, ?_⟩
  · exact fechaHito_none_iff _ _ df_historial e.lkOportunidad
  · intro f hf
    exact fechaHito_some _ _ df_historial e.lkOportunidad f hf
  · exact fechaHito_none_iff _ _ df_historial e.lkOportunidad
  · intro f hf
    exact fechaHito_some _ _ df_historial e.lkOportunidad f hf
  · rintro (hnone | ⟨f, hsome, hlt⟩)
    · replace hnone : fechaPruebasCalificadas df_historial e.lkOportunidad = none := hnone
      simp [hnone]
    · replace hsome : fechaPruebasCalificadas df_historial e.lkOportunidad = some f := hsome
      replace hlt : e.createdDate < f := hlt
      simp [hsome, hlt]
  · rintro (hnone | ⟨f, hsome, hlt⟩)
    · replace hnone : fechaMatriculaIniciada df_historial e.lkOportunidad = none := hnone
      simp [hnone]
    · replace hsome : fechaMatriculaIniciada df_historial e.lkOportunidad = some f := hsome
      replace hlt : e.createdDate < f := hlt
      simp [hsome, hlt]

/-- Concrete data for the C7 witness: one entity with an early
application event, its academic milestone at t = 100 and its economic
milestone at t = 200. -/
def dfHistorialC7 : List EventoHistorial :=
  [⟨"o1", "Pruebas de admisión", "Pruebas calificadas", 100, none⟩,
   ⟨"o1", "Solicitud", "Nueva", 50, none⟩,
   ⟨"o1", "Matrícula admisión", "Pago Mínimo", 200, none⟩]

def dfPrincipalC7 : List FilaPrincipal :=
  [⟨"o1", some 9, some 1, some 8, some 1, some 1, some 2, some 3, some 1,
    some 1, some 1, some 4⟩]

/-- The output row produced for the early "Solicitud" event: both masks
apply, so every merged column group is null. -/
def filaHitosC7 : FilaHistorialHitos :=
  ⟨"o1", "Solicitud", "Nueva", 50, none, some 100, some 200,
   none, none, none, none, none, none, none, none, none, none, none⟩

theorem limpiar_hitos_correcto_witness :
    (filaHitosC7 ∈ limpiar_historial_por_hitos dfHistorialC7 dfPrincipalC7) ∧
    filaHitosC7.NU_NOTA_MEDIA_ADMISION = none ∧
    filaHitosC7.PAID_AMOUNT = none := by
  have hm : filaHitosC7 ∈ limpiar_historial_por_hitos dfHistorialC7 dfPrincipalC7 := by
    decide
  have h := limpiar_hitos_correcto dfHistorialC7 dfPrincipalC7 filaHitosC7 hm
  exact ⟨hm, (h.2.2.1 (Or.inr ⟨100, by decide, by decide⟩)).1,
    (h.2.2.2 (Or.inr ⟨200, by decide, by decide⟩)).2.1⟩

/-! ## Progressive Activity Aggregator (utils.py,
integrar_actividades_progresivo_por_curso lines 213-276)

A pandas frame is modelled as a column-name list (df.columns, for the
KeyError behaviour of the column accesses) together with typed rows
carrying the values of the columns the computation reads.  The function
is embedded in three parts sharing the source's branch structure: the
caller-visible master frame after the call (the source writes the
MasterDate helper column into the caller's frame at line 231, before the
reset_index copy of line 235), the caller-visible activity frame (worked
on as a .copy(), line 227, hence returned unchanged), and the returned
value or raised KeyError, checked in the order the source accesses
columns. -/

def colTipoActividad : String := "Campaign.LK_tipoActividadPromocion__r.Name"

def colCursoActividad : String := "Campaign.AcademicCourse__c"

/-- Exclusion keywords for bulk communication channels (line 217); the
pattern of line 218 is their regex alternation, so matching it is an
any-keyword substring test. -/
def keywords_excluir : List String :=
  ["mail", "email", "whatsapp", "masivo", "comunicación", "envío"]

/-- Lines 223-227 row filter: type label non-null, non-blank after
strip, and matching no exclusion keyword case-insensitively. -/
def tipoActividadValido (t : Option String) : Bool :=
  match t with
  | none => false
  | some s => !(recortar s == "") && !(keywords_excluir.any (fun k => contieneCI s k))

/-- One row of the activity table (historial_actividad), restricted to
the columns the aggregator reads. -/
structure FilaActividad where
  tipoActividad : Option String
  CreatedDate : Int
  Estado_del_miembro__c : Option String
  ContactId : String
  academicCourse : String
deriving DecidableEq, Repr

/-- One row of the master table, restricted to the entity key, the
observation timestamp and the cohort key. -/
structure FilaMaestro where
  ID18__PC : String
  CreatedDate : Int
  PL_CURSO_ACADEMICO : String
deriving DecidableEq, Repr

structure TablaMaestro where
  columnas : List String
  filas : List FilaMaestro
deriving DecidableEq, Repr

structure TablaActividades where
  columnas : List String
  filas : List FilaActividad
deriving DecidableEq, Repr

/-- status_lower (line 232): Estado_del_miembro__c lower-cased, null
propagating. -/
def status_lower (a : FilaActividad) : Option String :=
  a.Estado_del_miembro__c.map minusculas

/-- Lines 240-262 at one master row.  Because fila_id_unico (line 235)
is unique per row, the inner join restricted to this row is the list of
activities matching its contact and cohort keys, the strict temporal
filter (line 251) keeps those strictly earlier than the row's own
timestamp, and the groupby sums of the es_asiste / es_solicitado
indicators (lines 254-262) are the lengths below. -/
def cuentaFila (df_act_clean : List FilaActividad) (m : FilaMaestro) : Nat × Nat :=
  let df_joined := df_act_clean.filter (fun a =>
    a.ContactId == m.ID18__PC && a.academicCourse == m.PL_CURSO_ACADEMICO)
  let df_temporal := df_joined.filter (fun a => decide (a.CreatedDate < m.CreatedDate))
  ((df_temporal.filter (fun a => status_lower a == some "asiste")).length,
   (df_temporal.filter (fun a => status_lower a == some "solicitado" ||
      status_lower a == some "solicita asistir")).length)

/-- One row of the returned frame: the master row's columns with the two
counters appended (lines 266-273; fillna(0) makes missing groups 0). -/
structure FilaResultadoActividades where
  fila : FilaMaestro
  num_asistencias_acum : Nat
  num_solicitudes_acum : Nat
deriving DecidableEq, Repr

/-- pandas KeyError text for a df[[...]] selection listing the missing
columns in request order; for a single missing column the message is
just that column name. -/
def unirConComas : List String → String
  | [] => ""
  | [c] => c
  | c :: resto => c ++ ", " ++ unirConComas resto

def mensajeColumnasFaltantes (pedidas presentes : List String) : String :=
  unirConComas (pedidas.filter (fun c => decide (c ∉ presentes)))

/-- The returned value, or the KeyError message, of
integrar_actividades_progresivo_por_curso.  The column checks follow the
order in which the source accesses columns: line 223 (activity type
label), line 230 (activity CreatedDate), line 231 (master CreatedDate),
line 232 (member status), line 241 (master key/cohort selection),
line 242 (activity key/cohort selection). -/
def resultadoIntegrar (df_master : TablaMaestro) (df_actividades : TablaActividades) :
    Except String (List FilaResultadoActividades) :=
  if colTipoActividad ∉ df_actividades.columnas then
    Except.error colTipoActividad
  else if "CreatedDate" ∉ df_actividades.columnas then
    Except.error "CreatedDate"
  else if "CreatedDate" ∉ df_master.columnas then
    Except.error "CreatedDate"
  else if "Estado_del_miembro__c" ∉ df_actividades.columnas then
    Except.error "Estado_del_miembro__c"
  else if "ID18__PC" ∉ df_master.columnas ∨ "PL_CURSO_ACADEMICO" ∉ df_master.columnas then
    Except.error (mensajeColumnasFaltantes ["ID18__PC", "PL_CURSO_ACADEMICO"]
      df_master.columnas)
  else if "ContactId" ∉ df_actividades.columnas ∨
      colCursoActividad ∉ df_actividades.columnas then
    Except.error (mensajeColumnasFaltantes ["ContactId", colCursoActividad]
      df_actividades.columnas)
  else
    Except.ok (df_master.filas.map (fun m =>
      { fila := m
        num_asistencias_acum := (cuentaFila (df_actividades.filas.filter
          (fun a => tipoActividadValido a.tipoActividad)) m).1
        num_solicitudes_acum := (cuentaFila (df_actividades.filas.filter
          (fun a => tipoActividadValido a.tipoActividad)) m).2 }))

/-- The caller's master frame after the call: line 231 adds the
MasterDate column in place once the accesses of lines 223-231 have
succeeded; every later write lands on the reset_index copy of
line 235. -/
def masterTrasIntegrar (df_master : TablaMaestro) (df_actividades : TablaActividades) :
    TablaMaestro :=
  if colTipoActividad ∉ df_actividades.columnas then df_master
  else if "CreatedDate" ∉ df_actividades.columnas then df_master
  else if "CreatedDate" ∉ df_master.columnas then df_master
  else
    { df_master with columnas :=
        if "MasterDate" ∈ df_master.columnas then df_master.columnas
        else df_master.columnas ++ ["MasterDate"] }

/-- What the caller observes after integrar_actividades_progresivo_por_curso. -/
structure SalidaIntegrar where
  master_final : TablaMaestro
  actividades_final : TablaActividades
  resultado : Except String (List FilaResultadoActividades)
deriving DecidableEq, Repr

def integrar_actividades_progresivo_por_curso (df_master : TablaMaestro)
    (df_actividades : TablaActividades) : SalidaIntegrar :=
  { master_final := masterTrasIntegrar df_master df_actividades
    actividades_final := df_actividades
    resultado := resultadoIntegrar df_master df_actividades }

/-! Claim-side predicates for the aggregator, written from the words of
the claims (spec 4.3 steps 1-5): key match, cohort match, valid
non-excluded label, strictly earlier timestamp, and status
classification. -/

/-- The activity counts towards num_asistencias_acum of a master row:
same entity key and cohort, label non-null, non-blank and containing no
exclusion keyword case-insensitively, timestamp strictly before the
row's, and status equal to "asiste" case-insensitively. -/
def actividadAsisteSegunSpec (m : FilaMaestro) (a : FilaActividad) : Bool :=
  a.ContactId == m.ID18__PC && a.academicCourse == m.PL_CURSO_ACADEMICO &&
  (match a.tipoActividad with
   | none => false
   | some s => !(recortar s == "") && keywords_excluir.all (fun k => !(contieneCI s k))) &&
  decide (a.CreatedDate < m.CreatedDate) &&
  (a.Estado_del_miembro__c.map minusculas == some "asiste")

/-- Same activity conditions with status in
{"solicitado", "solicita asistir"} case-insensitively. -/
def actividadSolicitaSegunSpec (m : FilaMaestro) (a : FilaActividad) : Bool :=
  a.ContactId == m.ID18__PC && a.academicCourse == m.PL_CURSO_ACADEMICO &&
  (match a.tipoActividad with
   | none => false
   | some s => !(recortar s == "") && keywords_excluir.all (fun k => !(contieneCI s k))) &&
  decide (a.CreatedDate < m.CreatedDate) &&
  (a.Estado_del_miembro__c.map minusculas == some "solicitado" ||
   a.Estado_del_miembro__c.map minusculas == some "solicita asistir")

lemma not_any_eq_all_not {α : Type} (l : List α) (p : α → Bool) :
    (!(l.any p)) = l.all (fun k => !(p k)) := by
  induction l with
  | nil => rfl
  | cons k ks ih => simp [List.any_cons, List.all_cons, ← ih]

lemma tipoActividadValido_eq_spec (t : Option String) :
    tipoActividadValido t =
      match t with
      | none => false
      | some s => !(recortar s == "") && keywords_excluir.all (fun k => !(contieneCI s k)) := by
  cases t with
  | none => rfl
  | some s =>
    simp only [tipoActividadValido]
    rw [not_any_eq_all_not]

lemma cuentaFila_asiste (filas : List FilaActividad) (m : FilaMaestro) :
    (cuentaFila (filas.filter (fun a => tipoActividadValido a.tipoActividad)) m).1 =
      filas.countP (actividadAsisteSegunSpec m) := by
  unfold cuentaFila
  simp only [List.filter_filter]
  rw [← List.countP_eq_length_filter]
  refine List.countP_congr ?_
  intro a _
  rw [actividadAsisteSegunSpec, tipoActividadValido_eq_spec]
  simp only [status_lower, Bool.and_eq_true]
  tauto

lemma cuentaFila_solicita (filas : List FilaActividad) (m : FilaMaestro) :
    (cuentaFila (filas.filter (fun a => tipoActividadValido a.tipoActividad)) m).2 =
      filas.countP (actividadSolicitaSegunSpec m) := by
  unfold cuentaFila
  simp only [List.filter_filter]
  rw [← List.countP_eq_length_filter]
  refine List.countP_congr ?_
  intro a _
  rw [actividadSolicitaSegunSpec, tipoActividadValido_eq_spec]
  simp only [status_lower, Bool.and_eq_true]
  tauto

/-- Characterization of a successful run: the returned rows are the
master rows in order, each with the two claim-side counts. -/
lemma integrar_resultado_ok (dm : TablaMaestro) (da : TablaActividades)
    (out : List FilaResultadoActividades)
    (h : (integrar_actividades_progresivo_por_curso dm da).resultado = Except.ok out) :
    out = dm.filas.map (fun m =>
      { fila := m
        num_asistencias_acum := da.filas.countP (actividadAsisteSegunSpec m)
        num_solicitudes_acum := da.filas.countP (actividadSolicitaSegunSpec m) }) := by
  have hres : resultadoIntegrar dm da = Except.ok out := h
  unfold resultadoIntegrar at hres
  split_ifs at hres
  injection hres with h3
  rw [← h3]
  refine List.map_congr_left ?_
  intro m _
  rw [cuentaFila_asiste, cuentaFila_solicita]

/-- C3: on a successful run the output has one row per master row, in
order; num_asistencias_acum counts exactly the activities with the row's
entity key and cohort, a valid non-excluded label, a strictly earlier
timestamp and status "asiste" case-insensitively; num_solicitudes_acum
counts the same activities with status in {"solicitado",
"solicita asistir"}; a row with no qualifying activity gets the count 0
(the counters are total natural numbers, never null). -/
theorem integrar_contadores_correctos (dm : TablaMaestro) (da : TablaActividades)
    (out : List FilaResultadoActividades)
    (h : (integrar_actividades_progresivo_por_curso dm da).resultado = Except.ok out) :
    out.length = dm.filas.length ∧
    ∀ i (hi : i < out.length) (hm : i < dm.filas.length),
      (out.get ⟨i, hi⟩).fila = dm.filas.get ⟨i, hm⟩ ∧
      (out.get ⟨i, hi⟩).num_asistencias_acum =
        da.filas.countP (actividadAsisteSegunSpec (dm.filas.get ⟨i, hm⟩)) ∧
      (out.get ⟨i, hi⟩).num_solicitudes_acum =
        da.filas.countP (actividadSolicitaSegunSpec (dm.filas.get ⟨i, hm⟩)) := by
  have hout := integrar_resultado_ok dm da out h
  subst hout
  refine ⟨by simp, ?_⟩
  intro i hi hm
  simp [List.get_eq_getElem, List.getElem_map]

/-- Master table used by the aggregator witnesses: entity A, observation
time 10, cohort C (the spec's Scenario C). -/
def dmC3 : TablaMaestro :=
  ⟨["CreatedDate", "ID18__PC", "PL_CURSO_ACADEMICO"], [⟨"A", 10, "C"⟩]⟩

/-- Activity table for the C3 witness: one countable attendance (t = 5),
one future attendance (t = 15), one request (t = 3), one excluded bulk
activity, one blank label, one null label, one other-entity row. -/
def daC3 : TablaActividades :=
  ⟨[colTipoActividad, "CreatedDate", "Estado_del_miembro__c", "ContactId",
    colCursoActividad],
   [⟨some "Visita campus", 5, some "Asiste", "A", "C"⟩,
    ⟨some "Visita campus", 15, some "asiste", "A", "C"⟩,
    ⟨some "Jornada", 3, some "Solicita asistir", "A", "C"⟩,
    ⟨some "Email masivo", 4, some "asiste", "A", "C"⟩,
    ⟨some "  ", 2, some "asiste", "A", "C"⟩,
    ⟨none, 1, some "asiste", "A", "C"⟩,
    ⟨some "Visita campus", 5, some "asiste", "B", "C"⟩]⟩

theorem integrar_contadores_correctos_witness :
    ((integrar_actividades_progresivo_por_curso dmC3 daC3).resultado =
      Except.ok [⟨⟨"A", 10, "C"⟩, 1, 1⟩]) ∧
    (([(⟨⟨"A", 10, "C"⟩, 1, 1⟩ : FilaResultadoActividades)]).get ⟨0, by decide⟩).num_asistencias_acum =
      daC3.filas.countP (actividadAsisteSegunSpec (dmC3.filas.get ⟨0, by decide⟩)) := by
  have hres : (integrar_actividades_progresivo_por_curso dmC3 daC3).resultado =
      Except.ok [⟨⟨"A", 10, "C"⟩, 1, 1⟩] := by decide
  have h := integrar_contadores_correctos dmC3 daC3 [⟨⟨"A", 10, "C"⟩, 1, 1⟩] hres
  exact ⟨hres, (h.2 0 (by decide) (by decide)).2.1⟩

lemma actividadAsisteSegunSpec_futuro (m : FilaMaestro) (a : FilaActividad)
    (hf : m.CreatedDate ≤ a.CreatedDate) : actividadAsisteSegunSpec m a = false := by
  unfold actividadAsisteSegunSpec
  rw [decide_eq_false (not_lt.mpr hf)]
  simp

lemma actividadSolicitaSegunSpec_futuro (m : FilaMaestro) (a : FilaActividad)
    (hf : m.CreatedDate ≤ a.CreatedDate) : actividadSolicitaSegunSpec m a = false := by
  unfold actividadSolicitaSegunSpec
  rw [decide_eq_false (not_lt.mpr hf)]
  simp

/-- C2: an activity whose timestamp is not strictly earlier than a master
row's own timestamp never contributes to that row's counters: removing
any such activity from the activity table leaves both counters of that
row unchanged. -/
theorem integrar_sin_fuga_futura (dm : TablaMaestro) (da : TablaActividades)
    (pre post : List FilaActividad) (a : FilaActividad)
    (hsplit : da.filas = pre ++ a :: post)
    (out outSin : List FilaResultadoActividades)
    (h : (integrar_actividades_progresivo_por_curso dm da).resultado = Except.ok out)
    (hSin : (integrar_actividades_progresivo_por_curso dm
        { da with filas := pre ++ post }).resultado = Except.ok outSin)
    (i : Nat) (hi : i < out.length) (hiSin : i < outSin.length)
    (hm : i < dm.filas.length)
    (hfuturo : (dm.filas.get ⟨i, hm⟩).CreatedDate ≤ a.CreatedDate) :
    (out.get ⟨i, hi⟩).num_asistencias_acum =
      (outSin.get ⟨i, hiSin⟩).num_asistencias_acum ∧
    (out.get ⟨i, hi⟩).num_solicitudes_acum =
      (outSin.get ⟨i, hiSin⟩).num_solicitudes_acum := by
  obtain ⟨dacols, dafilas⟩ := da
  dsimp only at hsplit
  subst hsplit
  have hout := integrar_resultado_ok dm ⟨dacols, pre ++ a :: post⟩ out h
  have houtSin := integrar_resultado_ok dm ⟨dacols, pre ++ post⟩ outSin hSin
  subst hout houtSin
  simp only [List.get_eq_getElem, List.getElem_map] at hfuturo ⊢
  constructor
  · rw [List.countP_append, List.countP_append, List.countP_cons,
      actividadAsisteSegunSpec_futuro _ _ hfuturo]
    simp
  · rw [List.countP_append, List.countP_append, List.countP_cons,
      actividadSolicitaSegunSpec_futuro _ _ hfuturo]
    simp

/-- Activity rows for the C2 witness. -/
def actC2a : FilaActividad := ⟨some "Visita campus", 5, some "asiste", "A", "C"⟩

def actC2b : FilaActividad := ⟨some "Visita campus", 15, some "asiste", "A", "C"⟩

def daC2 : TablaActividades :=
  ⟨[colTipoActividad, "CreatedDate", "Estado_del_miembro__c", "ContactId",
    colCursoActividad], [actC2a, actC2b]⟩

def resC2 : List FilaResultadoActividades := [⟨⟨"A", 10, "C"⟩, 1, 0⟩]

theorem integrar_sin_fuga_futura_witness :
    ((integrar_actividades_progresivo_por_curso dmC3 daC2).resultado =
      Except.ok resC2) ∧
    ((integrar_actividades_progresivo_por_curso dmC3
        { daC2 with filas := [actC2a] }).resultado = Except.ok resC2) ∧
    (resC2.get ⟨0, by decide⟩).num_asistencias_acum =
      (resC2.get ⟨0, by decide⟩).num_asistencias_acum := by
  refine ⟨by decide, by decide, ?_⟩
  exact (integrar_sin_fuga_futura dmC3 daC2 [actC2a] [] actC2b rfl resC2 resC2
    (by decide) (by decide) 0 (by decide) (by decide) (by decide) (by decide)).1

/-! ## Column requirements and failure behaviour of the aggregator -/

/-- The identity, timestamp and cohort columns of the master table named
by the claim. -/
def columnasClaveMaestro : List String :=
  ["ID18__PC", "CreatedDate", "PL_CURSO_ACADEMICO"]

/-- The identity, timestamp and cohort columns of the activity table
named by the claim. -/
def columnasClaveActividades : List String :=
  ["ContactId", "CreatedDate", colCursoActividad]

/-- Every master column the function reads. -/
def columnasRequeridasMaestro : List String :=
  ["CreatedDate", "ID18__PC", "PL_CURSO_ACADEMICO"]

/-- Every activity column the function reads. -/
def columnasRequeridasActividades : List String :=
  [colTipoActividad, "CreatedDate", "Estado_del_miembro__c", "ContactId",
   colCursoActividad]

lemma chStarts_refl (l : List Char) : chStarts l l = true := by
  induction l with
  | nil => rfl
  | cons c t ih => simp [chStarts, ih]

lemma chContains_starts (hay pat : List Char) (h : chStarts pat hay = true) :
    chContains hay pat = true := by
  cases hay with
  | nil =>
    cases pat with
    | nil => rfl
    | cons c t => simp [chStarts] at h
  | cons c t => simp [chContains, h]

lemma chContains_refl (l : List Char) : chContains l l = true :=
  chContains_starts l l (chStarts_refl l)

lemma integrar_resultado_def (dm : TablaMaestro) (da : TablaActividades) :
    (integrar_actividades_progresivo_por_curso dm da).resultado =
      resultadoIntegrar dm da := rfl

/-- C8 (amended): if an identity, timestamp or cohort column is absent
from either input, the aggregator fails, and the error message names a
genuinely missing required column (the message does not name the table —
see the counterexample theorem); when every required column is present
it never fails, and a row with no activity matching its entity key and
cohort gets zero for both counters rather than null. -/
theorem integrar_columnas_fallo (dm : TablaMaestro) (da : TablaActividades) :
    (((∃ c ∈ columnasClaveMaestro, c ∉ dm.columnas) ∨
      (∃ c ∈ columnasClaveActividades, c ∉ da.columnas)) →
      ∃ msg, (integrar_actividades_progresivo_por_curso dm da).resultado =
          Except.error msg ∧
        ∃ c, ((c ∈ columnasRequeridasMaestro ∧ c ∉ dm.columnas) ∨
              (c ∈ columnasRequeridasActividades ∧ c ∉ da.columnas)) ∧
          chContains msg.data c.data = true) ∧
    ((∀ c ∈ columnasRequeridasMaestro, c ∈ dm.columnas) →
     (∀ c ∈ columnasRequeridasActividades, c ∈ da.columnas) →
      ∃ out, (integrar_actividades_progresivo_por_curso dm da).resultado =
          Except.ok out ∧
        out.length = dm.filas.length ∧
        ∀ i (hi : i < out.length) (hm : i < dm.filas.length),
          (∀ a ∈ da.filas, ¬(a.ContactId = (dm.filas.get ⟨i, hm⟩).ID18__PC ∧
            a.academicCourse = (dm.filas.get ⟨i, hm⟩).PL_CURSO_ACADEMICO)) →
          (out.get ⟨i, hi⟩).num_asistencias_acum = 0 ∧
          (out.get ⟨i, hi⟩).num_solicitudes_acum = 0) := by
  constructor
  · intro hmiss
    rw [integrar_resultado_def]
    unfold resultadoIntegrar
    by_cases h1 : colTipoActividad ∉ da.columnas
    · rw [if_pos h1]
      exact ⟨colTipoActividad, rfl, colTipoActividad,
        Or.inr ⟨by simp [columnasRequeridasActividades], h1⟩, chContains_refl _⟩
    · rw [if_neg h1]
      by_cases h2 : "CreatedDate" ∉ da.columnas
      · rw [if_pos h2]
        exact ⟨"CreatedDate", rfl, "CreatedDate",
          Or.inr ⟨by simp [columnasRequeridasActividades], h2⟩, chContains_refl _⟩
      · rw [if_neg h2]
        by_cases h3 : "CreatedDate" ∉ dm.columnas
        · rw [if_pos h3]
          exact ⟨"CreatedDate", rfl, "CreatedDate",
            Or.inl ⟨by simp [columnasRequeridasMaestro], h3⟩, chContains_refl _⟩
        · rw [if_neg h3]
          by_cases h4 : "Estado_del_miembro__c" ∉ da.columnas
          · rw [if_pos h4]
            exact ⟨"Estado_del_miembro__c", rfl, "Estado_del_miembro__c",
              Or.inr ⟨by simp [columnasRequeridasActividades], h4⟩, chContains_refl _⟩
          · rw [if_neg h4]
            by_cases h5 : "ID18__PC" ∉ dm.columnas ∨ "PL_CURSO_ACADEMICO" ∉ dm.columnas
            · rw [if_pos h5]
              by_cases h5a : "ID18__PC" ∉ dm.columnas
              · refine ⟨_, rfl, "ID18__PC",
                  Or.inl ⟨by simp [columnasRequeridasMaestro], h5a⟩, ?_⟩
                by_cases h5b : "PL_CURSO_ACADEMICO" ∉ dm.columnas
                · have hmsg : mensajeColumnasFaltantes
                      ["ID18__PC", "PL_CURSO_ACADEMICO"] dm.columnas =
                      "ID18__PC" ++ ", " ++ "PL_CURSO_ACADEMICO" := by
                    simp [mensajeColumnasFaltantes, List.filter_cons, h5a, h5b,
                      unirConComas]
                  rw [hmsg]
                  decide
                · have hmsg : mensajeColumnasFaltantes
                      ["ID18__PC", "PL_CURSO_ACADEMICO"] dm.columnas = "ID18__PC" := by
                    simp [mensajeColumnasFaltantes, List.filter_cons, h5a, h5b,
                      unirConComas]
                  rw [hmsg]
                  exact chContains_refl _
              · have h5b := h5.resolve_left h5a
                refine ⟨_, rfl, "PL_CURSO_ACADEMICO",
                  Or.inl ⟨by simp [columnasRequeridasMaestro], h5b⟩, ?_⟩
                have hmsg : mensajeColumnasFaltantes
                    ["ID18__PC", "PL_CURSO_ACADEMICO"] dm.columnas =
                    "PL_CURSO_ACADEMICO" := by
                  simp [mensajeColumnasFaltantes, List.filter_cons, h5a, h5b,
                    unirConComas]
                rw [hmsg]
                exact chContains_refl _
            · rw [if_neg h5]
              by_cases h6 : "ContactId" ∉ da.columnas ∨ colCursoActividad ∉ da.columnas
              · rw [if_pos h6]
                by_cases h6a : "ContactId" ∉ da.columnas
                · refine ⟨_, rfl, "ContactId",
                    Or.inr ⟨by simp [columnasRequeridasActividades], h6a⟩, ?_⟩
                  by_cases h6b : colCursoActividad ∉ da.columnas
                  · have hmsg : mensajeColumnasFaltantes
                        ["ContactId", colCursoActividad] da.columnas =
                        "ContactId" ++ ", " ++ colCursoActividad := by
                      simp [mensajeColumnasFaltantes, List.filter_cons, h6a, h6b,
                        unirConComas]
                    rw [hmsg]
                    decide
                  · have hmsg : mensajeColumnasFaltantes
                        ["ContactId", colCursoActividad] da.columnas = "ContactId" := by
                      simp [mensajeColumnasFaltantes, List.filter_cons, h6a, h6b,
                        unirConComas]
                    rw [hmsg]
                    exact chContains_refl _
                · have h6b := h6.resolve_left h6a
                  refine ⟨_, rfl, colCursoActividad,
                    Or.inr ⟨by simp [columnasRequeridasActividades], h6b⟩, ?_⟩
                  have hmsg : mensajeColumnasFaltantes
                      ["ContactId", colCursoActividad] da.columnas = colCursoActividad := by
                    simp [mensajeColumnasFaltantes, List.filter_cons, h6a, h6b,
                      unirConComas]
                  rw [hmsg]
                  exact chContains_refl _
              · exfalso
                push_neg at h1 h2 h3 h4 h5 h6
                rcases hmiss with ⟨c, hcmem, hcnot⟩ | ⟨c, hcmem, hcnot⟩
                · simp only [columnasClaveMaestro, List.mem_cons,
                    List.not_mem_nil, or_false] at hcmem
                  rcases hcmem with rfl | rfl | rfl
                  · exact hcnot h5.1
                  · exact hcnot h3
                  · exact hcnot h5.2
                · simp only [columnasClaveActividades, List.mem_cons,
                    List.not_mem_nil, or_false] at hcmem
                  rcases hcmem with rfl | rfl | rfl
                  · exact hcnot h6.1
                  · exact hcnot h2
                  · exact hcnot h6.2
  · intro hdm hda
    have hID : "ID18__PC" ∈ dm.columnas := hdm _ (by simp [columnasRequeridasMaestro])
    have hCD : "CreatedDate" ∈ dm.columnas := hdm _ (by simp [columnasRequeridasMaestro])
    have hCU : "PL_CURSO_ACADEMICO" ∈ dm.columnas :=
      hdm _ (by simp [columnasRequeridasMaestro])
    have hT : colTipoActividad ∈ da.columnas :=
      hda _ (by simp [columnasRequeridasActividades])
    have hCDa : "CreatedDate" ∈ da.columnas :=
      hda _ (by simp [columnasRequeridasActividades])
    have hE : "Estado_del_miembro__c" ∈ da.columnas :=
      hda _ (by simp [columnasRequeridasActividades])
    have hC : "ContactId" ∈ da.columnas :=
      hda _ (by simp [columnasRequeridasActividades])
    have hA : colCursoActividad ∈ da.columnas :=
      hda _ (by simp [columnasRequeridasActividades])
    have hres : (integrar_actividades_progresivo_por_curso dm da).resultado =
        Except.ok (dm.filas.map (fun m =>
          { fila := m
            num_asistencias_acum := da.filas.countP (actividadAsisteSegunSpec m)
            num_solicitudes_acum := da.filas.countP (actividadSolicitaSegunSpec m) })) := by
      rw [integrar_resultado_def]
      unfold resultadoIntegrar
      rw [if_neg (not_not_intro hT), if_neg (not_not_intro hCDa),
        if_neg (not_not_intro hCD), if_neg (not_not_intro hE),
        if_neg (fun hor => hor.elim (fun hx => hx hID) (fun hx => hx hCU)),
        if_neg (fun hor => hor.elim (fun hx => hx hC) (fun hx => hx hA))]
      congr 1
      refine List.map_congr_left ?_
      intro m _
      rw [cuentaFila_asiste, cuentaFila_solicita]
    refine ⟨_, hres, by simp, ?_⟩
    intro i hi hm hnomatch
    simp only [List.get_eq_getElem, List.getElem_map]
    constructor
    · rw [List.countP_eq_zero]
      intro a ha hpa
      unfold actividadAsisteSegunSpec at hpa
      simp only [Bool.and_eq_true, beq_iff_eq] at hpa
      exact hnomatch a ha ⟨hpa.1.1.1.1, hpa.1.1.1.2⟩
    · rw [List.countP_eq_zero]
      intro a ha hpa
      unfold actividadSolicitaSegunSpec at hpa
      simp only [Bool.and_eq_true, beq_iff_eq] at hpa
      exact hnomatch a ha ⟨hpa.1.1.1.1, hpa.1.1.1.2⟩

/-- Master table with the identity column missing. -/
def dmC8 : TablaMaestro := ⟨["CreatedDate", "PL_CURSO_ACADEMICO"], []⟩

/-- Activity table with all required columns and no rows. -/
def daC8vacia : TablaActividades :=
  ⟨[colTipoActividad, "CreatedDate", "Estado_del_miembro__c", "ContactId",
    colCursoActividad], []⟩

theorem integrar_columnas_fallo_witness :
    ((integrar_actividades_progresivo_por_curso dmC8 daC3).resultado =
      Except.error "ID18__PC") ∧
    ((integrar_actividades_progresivo_por_curso dmC3 daC8vacia).resultado =
      Except.ok [⟨⟨"A", 10, "C"⟩, 0, 0⟩]) ∧
    (([(⟨⟨"A", 10, "C"⟩, 0, 0⟩ : FilaResultadoActividades)]).get
      ⟨0, by decide⟩).num_asistencias_acum = 0 := by
  obtain ⟨_msg, _hmsg, -⟩ :=
    (integrar_columnas_fallo dmC8 daC3).1 (Or.inl ⟨"ID18__PC", by decide, by decide⟩)
  obtain ⟨out, hout, _hlen, hz⟩ :=
    (integrar_columnas_fallo dmC3 daC8vacia).2 (by decide) (by decide)
  have houtL : out = [⟨⟨"A", 10, "C"⟩, 0, 0⟩] := by
    have h2 : Except.ok out =
        Except.ok [(⟨⟨"A", 10, "C"⟩, 0, 0⟩ : FilaResultadoActividades)] :=
      hout.symm.trans (by decide)
    injection h2
  subst houtL
  refine ⟨by decide, by decide, ?_⟩
  exact (hz 0 (by decide) (by decide)
    (fun a ha => absurd ha (by simp [daC8vacia]))).1

/-- Activity table whose ContactId column is missing. -/
def daSinContacto : TablaActividades :=
  ⟨[colTipoActividad, "CreatedDate", "Estado_del_miembro__c", colCursoActividad], []⟩

/-- C8 counterexample: with ContactId absent from the activity table the
run fails, but the raised KeyError message is exactly the missing column
name; it contains no designation of the offending table, contrary to the
claim that the message names the missing field and the table. -/
theorem integrar_mensaje_sin_tabla :
    ((integrar_actividades_progresivo_por_curso dmC3 daSinContacto).resultado =
      Except.error "ContactId") ∧
    contieneCI "ContactId" "df_actividades" = false ∧
    contieneCI "ContactId" "actividades" = false ∧
    contieneCI "ContactId" "df_master" = false ∧
    contieneCI "ContactId" "tabla" = false := by
  decide

/-- C9: the aggregator mutates the caller's master frame — line 231
writes the MasterDate helper column into df_master before the
reset_index copy of line 235 — so after a call the caller's master table
carries an extra MasterDate column; the activity frame, worked on as a
.copy() (line 227), is returned unchanged.  This contradicts the
specification's frame condition that no transformation beyond the
documented target write mutates a caller's table. -/
theorem integrar_muta_master :
    ((integrar_actividades_progresivo_por_curso dmC3 daC3).master_final.columnas =
      ["CreatedDate", "ID18__PC", "PL_CURSO_ACADEMICO", "MasterDate"]) ∧
    (integrar_actividades_progresivo_por_curso dmC3 daC3).master_final ≠ dmC3 ∧
    (integrar_actividades_progresivo_por_curso dmC3 daC3).actividades_final = daC3 := by
  decide
